import Mathlib

set_option autoImplicit false

/-!
Verification development for the Soba-DEX fraud-detection core.

The Python services under src/python/services are embedded shallowly:
Python floats become exact rationals, datetime values become rational
second counts, and every call to a wall clock is an explicit parameter.
Each definition carries a note naming the source function it embeds.
-/

namespace SobaDex

/-- The Transaction model of fraud_detection_service.py (class Transaction).
All fields of the pydantic model appear; floats are embedded as rationals
and the timestamp as seconds on a rational time axis.  The extra field
`amount_str` carries the Python string rendering str(amount) that
PatternDetector.detect_unusual_patterns inspects with str.endswith.  It
is not a free input: on the assess_risk path amount is a pydantic float
and amount_str is its shortest round-tripping rendering, which never
ends in the three characters 000 (integral floats below 1e16 end in a
dot and a zero, larger ones use exponent form, fractional shortest
renderings carry no trailing zeros); every fixture below carries such a
genuine rendering, and no theorem relies on any other value of the
field. -/
structure Tx where
  tx_hash : String
  from_address : String
  to_address : String
  amount : ℚ
  amount_str : String
  token_pair : String
  timestamp : ℚ
  gas_price : ℚ
  slippage : ℚ
  route_length : ℤ
  contract_interaction : Bool
deriving DecidableEq

/-- numpy.percentile with the default linear interpolation: sort, take the
fractional index q * (n - 1) / 100 and interpolate between its neighbours.
Used by AnomalyDetector.detect_anomalies (fraud_detection_service.py line
143, on a one-element list) and AlertingSystem.check_alerts
(metrics_service.py line 330). -/
def npPercentile (xs : List ℚ) (q : ℚ) : ℚ :=
  let s := xs.insertionSort (fun a b => a ≤ b)
  if s.isEmpty then 0
  else
    let pos : ℚ := q * ((s.length : ℚ) - 1) / 100
    let i : ℕ := (⌊pos⌋).toNat
    let frac : ℚ := pos - (⌊pos⌋ : ℚ)
    let lo := s.getD i 0
    let hi := s.getD (min (i + 1) (s.length - 1)) 0
    lo + frac * (hi - lo)

/-- The state of AnomalyDetector that detect_anomalies reads: the
model_trained flag, and the fitted scaler plus isolation forest collapsed
into one external scoring function.  `raw_score tx` stands for the Python
value -isolation_forest.score_samples(scaler.transform(X))[0] at the
feature vector of tx; the normalisation to [0,1] that the source performs
inline is kept inline in detect_anomalies below. -/
structure AnomalyModel where
  model_trained : Bool
  raw_score : Tx → ℚ

/-- AnomalyDetector.detect_anomalies (fraud_detection_service.py lines
127-148): an untrained model short-circuits to (0.0, []); otherwise the
normalised forest score is returned together with the three range-check
issue codes, appended in source order.  The gas-price check compares
gas_price against the 90th percentile of the one-element list
[gas_price], exactly as line 143 writes it. -/
def detect_anomalies (m : AnomalyModel) (transaction : Tx) : ℚ × List String :=
  if !m.model_trained then (0, [])
  else
    let anomaly_score := (m.raw_score transaction + 1) / 2
    let issues :=
      (if (5 : ℚ)/100 < transaction.slippage then ["high_slippage"] else [])
      ++ (if npPercentile [transaction.gas_price] 90 < transaction.gas_price then
            ["unusual_gas_price"] else [])
      ++ (if 5 < transaction.route_length then ["complex_route"] else [])
    (anomaly_score, issues)

/-- AnomalyDetector.extract_features (fraud_detection_service.py lines
91-107).  The Python body reads datetime.now() for the time-based
feature; that clock reading is the explicit parameter `now`. -/
def extract_features (now : ℚ) (transactions : List Tx) : List (List ℚ) :=
  transactions.map (fun tx =>
    [tx.amount, tx.gas_price, tx.slippage, (tx.route_length : ℚ),
     if tx.contract_interaction then (1 : ℚ) else 0,
     now - tx.timestamp])

/-- PatternDetector.detect_flash_loan (fraud_detection_service.py lines
181-193): large amount AND near-zero slippage AND complex route. -/
def detect_flash_loan (tx : Tx) : Bool :=
  decide (1000000 < tx.amount) && decide (tx.slippage < (1 : ℚ)/1000)
    && decide (4 < tx.route_length)

/-- PatternDetector.detect_mev_attack (fraud_detection_service.py lines
195-208): high gas price AND more than three mempool transactions on the
same token pair. -/
def detect_mev_attack (tx : Tx) (mempool_txs : List Tx) : Bool :=
  decide (100 < tx.gas_price)
    && decide (3 < (mempool_txs.filter (fun t => t.token_pair == tx.token_pair)).length)

/-- Mean of a list of rationals, as numpy.mean computes it on the
(nonempty at every call site) amount list. -/
def list_mean (xs : List ℚ) : ℚ := xs.sum / (xs.length : ℚ)

/-- Python str.endswith, expressed on the character sequences of the two
strings: true exactly when the suffix characters close the string. -/
def py_endswith (s post : String) : Bool := post.data.isSuffixOf s.data

/-- PatternDetector.detect_unusual_patterns (fraud_detection_service.py
lines 210-238).  The Python body reads datetime.now() for the inactivity
gap and the five-minute recency window; that clock is the parameter
`now`.  The three positive conditions append their codes in source
order: unusual_after_inactivity, rapid_trading, round_amount. -/
def detect_unusual_patterns (now : ℚ) (current_tx : Tx) (user_history : List Tx) :
    List String :=
  if user_history.isEmpty then []
  else
    let user_txs := user_history.insertionSort (fun a b => b.timestamp ≤ a.timestamp)
    let inactivity_alerts :=
      match user_txs with
      | [] => []
      | last_tx :: _ =>
        let time_gap := (now - last_tx.timestamp) / 3600
        if 48 < time_gap ∧ list_mean (user_txs.map Tx.amount) < current_tx.amount
        then ["unusual_after_inactivity"] else []
    let recent_txs := user_txs.filter (fun t => decide (now - t.timestamp < 300))
    let rapid_alerts := if 10 < recent_txs.length then ["rapid_trading"] else []
    let round_alerts := if py_endswith current_tx.amount_str "000" then ["round_amount"] else []
    inactivity_alerts ++ rapid_alerts ++ round_alerts

namespace MEVDetector

/-- Count of surrounding transactions strictly before the target whose
amount exceeds half the target amount (blockchain_intelligence_service.py
lines 219 and 222). -/
def qualifying_before (target_tx : Tx) (surrounding_txs : List Tx) : ℕ :=
  ((surrounding_txs.filter (fun tx => decide (tx.timestamp < target_tx.timestamp))).filter
    (fun tx => decide (target_tx.amount * (1/2) < tx.amount))).length

/-- Count of surrounding transactions strictly after the target whose
amount exceeds half the target amount (blockchain_intelligence_service.py
lines 220 and 223). -/
def qualifying_after (target_tx : Tx) (surrounding_txs : List Tx) : ℕ :=
  ((surrounding_txs.filter (fun tx => decide (target_tx.timestamp < tx.timestamp))).filter
    (fun tx => decide (target_tx.amount * (1/2) < tx.amount))).length

/-- MEVDetector.detect_sandwich_attack (blockchain_intelligence_service.py
lines 206-228): a sandwich needs at least one qualifying transaction on
each side; confidence is 0.7 when each side has more than one, else 0.5. -/
def detect_sandwich_attack (target_tx : Tx) (surrounding_txs : List Tx) : Bool × ℚ :=
  (decide (0 < qualifying_before target_tx surrounding_txs)
     && decide (0 < qualifying_after target_tx surrounding_txs),
   if 1 < qualifying_before target_tx surrounding_txs
      ∧ 1 < qualifying_after target_tx surrounding_txs
   then (7 : ℚ)/10 else (5 : ℚ)/10)

end MEVDetector

/-- The AnomalyAlert model of fraud_detection_service.py (lines 57-63).
The description field in the source is plain text except for the
contract_risk alert, whose f-string interpolates the score; the
interpolated rendering is dropped here and only the fixed text kept. -/
structure AnomalyAlert where
  alert_type : String
  risk_level : String
  confidence : ℚ
  description : String
  recommended_action : String
deriving DecidableEq

/-- The RiskAssessmentRequest model (fraud_detection_service.py lines
49-55); user_history is Optional in the source. -/
structure RiskAssessmentRequest where
  transaction : Tx
  user_history : Option (List Tx)
  check_patterns : Bool
  check_network : Bool
  check_contract : Bool
deriving DecidableEq

/-- The RiskAssessmentResponse model (fraud_detection_service.py lines
65-72). -/
structure RiskAssessmentResponse where
  tx_hash : String
  risk_score : ℚ
  risk_level : String
  alerts : List AnomalyAlert
  timestamp : ℚ
  latency_ms : ℚ
deriving DecidableEq

/-- The flash_loan alert literal of assess_risk (lines 304-310). -/
def flash_loan_alert : AnomalyAlert :=
  { alert_type := "flash_loan", risk_level := "medium", confidence := (75 : ℚ)/100,
    description := "Potential flash loan usage detected",
    recommended_action := "Monitor for repayment" }

/-- The mev alert literal of assess_risk (lines 316-322). -/
def mev_alert : AnomalyAlert :=
  { alert_type := "mev", risk_level := "high", confidence := (70 : ℚ)/100,
    description := "Potential MEV/sandwich attack detected",
    recommended_action := "Review transaction carefully" }

/-- The rapid-trading alert literal of assess_risk (lines 330-336). -/
def rapid_trading_alert : AnomalyAlert :=
  { alert_type := "unusual_pattern", risk_level := "medium", confidence := (65 : ℚ)/100,
    description := "Rapid trading detected",
    recommended_action := "Possible bot activity" }

/-- The after-inactivity alert literal of assess_risk (lines 340-346). -/
def inactivity_alert : AnomalyAlert :=
  { alert_type := "unusual_pattern", risk_level := "low", confidence := (50 : ℚ)/100,
    description := "Large trade after inactivity",
    recommended_action := "Monitor user account" }

/-- The contract_risk alert literal of assess_risk (lines 354-360), a
function of the anomaly score. -/
def contract_risk_alert (anomaly_score : ℚ) : AnomalyAlert :=
  { alert_type := "contract_risk",
    risk_level := if (85 : ℚ)/100 < anomaly_score then "high" else "medium",
    confidence := anomaly_score,
    description := "Anomalous transaction detected",
    recommended_action := "Review transaction parameters" }

/-- Python truthiness of the Optional user_history list: None and the
empty list are falsy (guard on line 326). -/
def history_truthy : Option (List Tx) → Bool
  | none => false
  | some h => !h.isEmpty

/-- The pattern codes that assess_risk obtains on line 327: computed only
when check_patterns holds and the history is truthy, else absent. -/
def pattern_alert_codes (now : ℚ) (req : RiskAssessmentRequest) : List String :=
  if req.check_patterns && history_truthy req.user_history then
    detect_unusual_patterns now req.transaction (req.user_history.getD [])
  else []

/-- Guard of the flash-loan branch of assess_risk (line 303). -/
def flash_hit (req : RiskAssessmentRequest) : Bool :=
  req.check_contract && detect_flash_loan req.transaction

/-- Guard of the MEV branch of assess_risk (lines 314-315); the mempool
is `request.user_history or []`. -/
def mev_hit (req : RiskAssessmentRequest) : Bool :=
  req.check_contract && detect_mev_attack req.transaction (req.user_history.getD [])

/-- Guard of the rapid-trading branch of assess_risk (line 329). -/
def rapid_hit (now : ℚ) (req : RiskAssessmentRequest) : Bool :=
  (pattern_alert_codes now req).contains "rapid_trading"

/-- Guard of the after-inactivity branch of assess_risk (line 339). -/
def inact_hit (now : ℚ) (req : RiskAssessmentRequest) : Bool :=
  (pattern_alert_codes now req).contains "unusual_after_inactivity"

/-- The pattern contribution to the running risk_score of assess_risk:
the sum of the four fixed weights, in source order (lines 311, 323, 337,
347). -/
def pattern_score (now : ℚ) (req : RiskAssessmentRequest) : ℚ :=
  (if flash_hit req then (15 : ℚ)/100 else 0)
  + (if mev_hit req then (25 : ℚ)/100 else 0)
  + (if rapid_hit now req then (10 : ℚ)/100 else 0)
  + (if inact_hit now req then (5 : ℚ)/100 else 0)

/-- The anomaly contribution to the running risk_score of assess_risk
(lines 353 and 361): anomaly_score * 0.3 when the score exceeds 0.7,
else nothing. -/
def anomaly_contribution (m : AnomalyModel) (tx : Tx) : ℚ :=
  if (7 : ℚ)/10 < (detect_anomalies m tx).1 then (detect_anomalies m tx).1 * ((3 : ℚ)/10)
  else 0

/-- The alerts list that assess_risk accumulates, in source append order:
flash_loan, mev, rapid trading, after inactivity, contract risk. -/
def assess_alerts (m : AnomalyModel) (now : ℚ) (req : RiskAssessmentRequest) :
    List AnomalyAlert :=
  (if flash_hit req then [flash_loan_alert] else [])
  ++ (if mev_hit req then [mev_alert] else [])
  ++ (if rapid_hit now req then [rapid_trading_alert] else [])
  ++ (if inact_hit now req then [inactivity_alert] else [])
  ++ (if (7 : ℚ)/10 < (detect_anomalies m req.transaction).1 then
        [contract_risk_alert (detect_anomalies m req.transaction).1] else [])

/-- The cutoff ladder of assess_risk (fraud_detection_service.py lines
366-375) mapping the clamped score to a level name. -/
def risk_level_of (s : ℚ) : String :=
  if s < (3 : ℚ)/10 then "safe"
  else if s < (5 : ℚ)/10 then "low"
  else if s < (7 : ℚ)/10 then "medium"
  else if s < (85 : ℚ)/100 then "high"
  else "critical"

/-- FraudDetectionService.assess_risk (fraud_detection_service.py lines
293-391).  The clock readings of the body are the parameters `now` (the
start time, also the clock the pattern detectors read) and `end_time`
(the reading taken for the latency and the response timestamp).  The
running risk_score is the pattern contribution plus the anomaly
contribution, clamped to at most 1 on line 364. -/
def assess_risk (m : AnomalyModel) (now end_time : ℚ) (req : RiskAssessmentRequest) :
    RiskAssessmentResponse :=
  let score := min 1 (pattern_score now req + anomaly_contribution m req.transaction)
  { tx_hash := req.transaction.tx_hash,
    risk_score := score,
    risk_level := risk_level_of score,
    alerts := assess_alerts m now req,
    timestamp := end_time,
    latency_ms := (end_time - now) * 1000 }

/-- The per-call alert emissions of assess_risk, keyed as the claims key
them: lines 381-382 increment the fraud_alerts counter once per alert of
the returned assessment, with no deduplication state consulted; the
transaction hash of the request is paired with each alert type. -/
def emitted_alert_keys (m : AnomalyModel) (now end_time : ℚ)
    (req : RiskAssessmentRequest) : List (String × String) :=
  (assess_risk m now end_time req).alerts.map
    (fun alert => (req.transaction.tx_hash, alert.alert_type))

/-- Total emissions for one (transaction hash, alert type) key over a
sequence of assess_risk calls. -/
def emission_count (key : String × String) (m : AnomalyModel) (now end_time : ℚ)
    (reqs : List RiskAssessmentRequest) : ℕ :=
  ((reqs.map (emitted_alert_keys m now end_time)).flatten).count key

/-- The per-service statistics that AlertingSystem.check_alerts reads
(metrics_service.py): request totals and the raw latency samples. -/
structure ServiceStats where
  total_requests : ℕ
  failed_requests : ℕ
  latencies : List ℚ
deriving DecidableEq

/-- The AlertingSystem thresholds dict (metrics_service.py lines
302-306). -/
structure AlertThresholds where
  error_rate : ℚ
  p95_latency : ℚ
  success_rate : ℚ
deriving DecidableEq

/-- The threshold defaults of AlertingSystem.__init__. -/
def default_thresholds : AlertThresholds :=
  { error_rate := (5 : ℚ)/100, p95_latency := 200, success_rate := (95 : ℚ)/100 }

/-- One alert record of AlertingSystem.check_alerts (metrics_service.py
lines 319-327 and 332-340).  The formatted message string of the source
is dropped; its numeric payload is the value field.  A record carries the
single timestamp taken at detection and no other time field. -/
structure MetricAlert where
  severity : String
  service : String
  type : String
  value : ℚ
  threshold : ℚ
  timestamp : ℚ
deriving DecidableEq

/-- The alerts one service contributes in one check_alerts pass
(metrics_service.py lines 312-340): skip on zero traffic, then the
error-rate check and, when latencies exist, the p95 check. -/
def service_alerts (now : ℚ) (th : AlertThresholds) (service : String)
    (stats : ServiceStats) : List MetricAlert :=
  if stats.total_requests = 0 then []
  else
    let error_rate : ℚ := (stats.failed_requests : ℚ) / (stats.total_requests : ℚ)
    (if th.error_rate < error_rate then
       [{ severity := "warning", service := service, type := "error_rate",
          value := error_rate, threshold := th.error_rate, timestamp := now }]
     else [])
    ++ (if stats.latencies.isEmpty then []
        else
          let p95 : ℚ := npPercentile stats.latencies 95
          if th.p95_latency < p95 then
            [{ severity := "warning", service := service, type := "latency",
               value := p95, threshold := th.p95_latency, timestamp := now }]
          else [])

/-- AlertingSystem.check_alerts (metrics_service.py lines 308-343): a
fresh list is computed from the current statistics and replaces the
stored self.alerts wholesale; no prior alert record is consulted or
updated. -/
def check_alerts (now : ℚ) (th : AlertThresholds)
    (service_stats : List (String × ServiceStats)) : List MetricAlert :=
  (service_stats.map (fun e => service_alerts now th e.1 e.2)).flatten

/-- Modelled from the spec: the fixed ascending cutoff table of section
4.4, written from the words of the spec for comparison with the
risk_level ladder the code computes: score below 0.3 is safe, below 0.5
low, below 0.7 medium, below 0.85 high, else critical. -/
def spec_cutoff_level (s : ℚ) : String :=
  if s < (3 : ℚ)/10 then "safe"
  else if s < (5 : ℚ)/10 then "low"
  else if s < (7 : ℚ)/10 then "medium"
  else if s < (85 : ℚ)/100 then "high"
  else "critical"

/-! ### Helper lemmas -/

lemma npPercentile_singleton (x : ℚ) : npPercentile [x] 90 = x := by
  simp [npPercentile, List.insertionSort, List.orderedInsert]

lemma pattern_score_nonneg (now : ℚ) (req : RiskAssessmentRequest) :
    0 ≤ pattern_score now req := by
  unfold pattern_score
  have h1 : (0 : ℚ) ≤ (if flash_hit req then (15 : ℚ)/100 else 0) := by positivity
  have h2 : (0 : ℚ) ≤ (if mev_hit req then (25 : ℚ)/100 else 0) := by positivity
  have h3 : (0 : ℚ) ≤ (if rapid_hit now req then (10 : ℚ)/100 else 0) := by positivity
  have h4 : (0 : ℚ) ≤ (if inact_hit now req then (5 : ℚ)/100 else 0) := by positivity
  linarith

lemma anomaly_contribution_nonneg (m : AnomalyModel) (tx : Tx) :
    0 ≤ anomaly_contribution m tx := by
  unfold anomaly_contribution
  split_ifs with h
  · nlinarith
  · exact le_refl 0

/-! ### Concrete fixtures used by witnesses and counterexamples -/

/-- Test fixture: a transaction with the given numeric profile; the
address and pair fields are inert strings. -/
def mkTx (hash : String) (amount : ℚ) (amount_str : String) (ts gas slip : ℚ)
    (route : ℤ) (ci : Bool) : Tx :=
  { tx_hash := hash, from_address := "0xfrom", to_address := "0xto",
    amount := amount, amount_str := amount_str, token_pair := "ETH-USDC",
    timestamp := ts, gas_price := gas, slippage := slip,
    route_length := route, contract_interaction := ci }

/-- An AnomalyModel whose statistical model is not fit. -/
def untrained_model : AnomalyModel :=
  { model_trained := false, raw_score := fun _ => 0 }

/-- An AnomalyModel whose statistical model is fit and scores everything
at the neutral raw value 0. -/
def trained_model : AnomalyModel :=
  { model_trained := true, raw_score := fun _ => 0 }

/-- The flash-loan example of the claims: amount 2,000,000, slippage
0.0001, route length 6. -/
def flash_example_tx : Tx := mkTx "0xflash" 2000000 "2000000.0" 0 10 ((1 : ℚ)/10000) 6 true

/-- The flash-loan assessment request used to count emissions. -/
def flash_example_req : RiskAssessmentRequest :=
  { transaction := flash_example_tx, user_history := none,
    check_patterns := true, check_network := true, check_contract := true }

/-! ### C6: the flash-loan detector is the exact conjunction -/

/-- C6: detect_flash_loan flags a transaction exactly when all three
conditions hold — amount above 1,000,000, slippage below 0.001 and route
length above 4 — so no single condition or pair of conditions suffices;
and the concrete transaction with amount 2,000,000, slippage 0.0001 and
route length 6 is flagged. -/
theorem flash_loan_iff_conjunction :
    (∀ tx : Tx, detect_flash_loan tx = true ↔
      (1000000 < tx.amount ∧ tx.slippage < (1 : ℚ)/1000 ∧ 4 < tx.route_length))
    ∧ detect_flash_loan flash_example_tx = true := by
  constructor
  · intro tx
    simp [detect_flash_loan, and_assoc]
  · norm_num [detect_flash_loan, flash_example_tx, mkTx]

/-! ### C10: the unusual_gas_price issue code is unreachable -/

/-- C10: for every model state and transaction, detect_anomalies never
reports the unusual_gas_price issue code: the 90th percentile of the
one-element list holding only the gas price of the transaction equals
that gas price, so the strict comparison on line 143 never holds. -/
theorem unusual_gas_price_never_emitted (m : AnomalyModel) (tx : Tx) :
    ((detect_anomalies m tx).2).contains "unusual_gas_price" = false := by
  have hp : ¬ npPercentile [tx.gas_price] 90 < tx.gas_price := by
    rw [npPercentile_singleton]
    exact lt_irrefl _
  unfold detect_anomalies
  split_ifs <;> simp_all

/-! ### C1: score bounds and the cutoff ladder -/

/-- C1: every assessment has a risk score inside [0,1], its risk level is
the fixed ascending cutoff ladder of the spec applied to that score, and
each boundary score maps to the higher level: 0.3 to low, 0.5 to medium,
0.7 to high and 0.85 to critical. -/
theorem risk_score_bounds_and_cutoffs (m : AnomalyModel) (now end_time : ℚ)
    (req : RiskAssessmentRequest) :
    (0 ≤ (assess_risk m now end_time req).risk_score
      ∧ (assess_risk m now end_time req).risk_score ≤ 1)
    ∧ (assess_risk m now end_time req).risk_level
        = spec_cutoff_level (assess_risk m now end_time req).risk_score
    ∧ spec_cutoff_level ((3 : ℚ)/10) = "low"
    ∧ spec_cutoff_level ((5 : ℚ)/10) = "medium"
    ∧ spec_cutoff_level ((7 : ℚ)/10) = "high"
    ∧ spec_cutoff_level ((85 : ℚ)/100) = "critical" := by
  refine ⟨⟨?_, ?_⟩, ?_, ?_, ?_, ?_, ?_⟩
  · exact le_min (by norm_num)
      (add_nonneg (pattern_score_nonneg now req) (anomaly_contribution_nonneg m _))
  · exact min_le_left _ _
  · rfl
  · norm_num [spec_cutoff_level]
  · norm_num [spec_cutoff_level]
  · norm_num [spec_cutoff_level]
  · norm_num [spec_cutoff_level]

/-! ### C8: the anomaly contribution gate -/

/-- C8: the anomaly score contributes to the composite score exactly when
it exceeds 0.7 — then exactly anomaly_score * 0.3 is added before the
clamp and a contract_risk Finding appears in the output — and at or
below 0.7 nothing is added and no contract_risk Finding is emitted. -/
theorem anomaly_contribution_gate (m : AnomalyModel) (now end_time : ℚ)
    (req : RiskAssessmentRequest) :
    (assess_risk m now end_time req).risk_score
      = min 1 (pattern_score now req
          + (if (7 : ℚ)/10 < (detect_anomalies m req.transaction).1 then
               (detect_anomalies m req.transaction).1 * ((3 : ℚ)/10) else 0))
    ∧ ((assess_risk m now end_time req).alerts.filter
        (fun a => a.alert_type == "contract_risk"))
      = (if (7 : ℚ)/10 < (detect_anomalies m req.transaction).1 then
           [contract_risk_alert (detect_anomalies m req.transaction).1] else []) := by
  constructor
  · rfl
  · show (assess_alerts m now req).filter (fun a => a.alert_type == "contract_risk") = _
    unfold assess_alerts
    rw [List.filter_append, List.filter_append, List.filter_append, List.filter_append]
    have hfl : (if flash_hit req then [flash_loan_alert] else []).filter
        (fun a => a.alert_type == "contract_risk") = [] := by
      split_ifs <;> rfl
    have hmev : (if mev_hit req then [mev_alert] else []).filter
        (fun a => a.alert_type == "contract_risk") = [] := by
      split_ifs <;> rfl
    have hrap : (if rapid_hit now req then [rapid_trading_alert] else []).filter
        (fun a => a.alert_type == "contract_risk") = [] := by
      split_ifs <;> rfl
    have hina : (if inact_hit now req then [inactivity_alert] else []).filter
        (fun a => a.alert_type == "contract_risk") = [] := by
      split_ifs <;> rfl
    rw [hfl, hmev, hrap, hina]
    split_ifs with h
    · rfl
    · rfl

/-! ### C5: the untrained model degrades safely -/

/-- C5: when the statistical model is not fit, detect_anomalies returns
the neutral pair (0, []), the anomaly contribution to the composite
score is 0, and assess_risk still returns a complete assessment whose
score and alerts are built from the pattern detectors alone. -/
theorem untrained_model_degrades_safely (m : AnomalyModel) (now end_time : ℚ)
    (req : RiskAssessmentRequest) (h : m.model_trained = false) :
    detect_anomalies m req.transaction = (0, [])
    ∧ anomaly_contribution m req.transaction = 0
    ∧ (assess_risk m now end_time req).risk_score = min 1 (pattern_score now req)
    ∧ (assess_risk m now end_time req).alerts
        = (if flash_hit req then [flash_loan_alert] else [])
          ++ (if mev_hit req then [mev_alert] else [])
          ++ (if rapid_hit now req then [rapid_trading_alert] else [])
          ++ (if inact_hit now req then [inactivity_alert] else [])
    ∧ (assess_risk m now end_time req).tx_hash = req.transaction.tx_hash := by
  have hd : detect_anomalies m req.transaction = (0, []) := by
    unfold detect_anomalies
    rw [h]
    rfl
  have hc : anomaly_contribution m req.transaction = 0 := by
    unfold anomaly_contribution
    rw [hd]
    norm_num
  refine ⟨hd, hc, ?_, ?_, rfl⟩
  · show min 1 (pattern_score now req + anomaly_contribution m req.transaction) = _
    rw [hc, add_zero]
  · show assess_alerts m now req = _
    unfold assess_alerts
    rw [hd]
    norm_num

/-- C5 witness: the degraded path evaluated at a concrete untrained model
and request. -/
theorem untrained_model_degrades_safely_witness :
    (assess_risk untrained_model 0 0 flash_example_req).risk_score
      = min 1 (pattern_score 0 flash_example_req) :=
  (untrained_model_degrades_safely untrained_model 0 0 flash_example_req rfl).2.2.1

/-! ### C4: the range checks sit behind the model_trained guard -/

/-- A transaction with slippage 0.1, ten times the 5% range-check bound. -/
def high_slippage_tx : Tx := mkTx "0xslip" 1000 "1000.0" 0 10 ((1 : ℚ)/10) 2 false

/-- C4 counterexample: a transaction whose slippage exceeds 0.05 produces
no high_slippage issue code when the model is not fit — the untrained
short circuit on line 129 returns before any range check runs. -/
theorem untrained_range_checks_skipped_cex :
    decide ((5 : ℚ)/100 < high_slippage_tx.slippage) = true
    ∧ (detect_anomalies untrained_model high_slippage_tx).2 = []
    ∧ ((detect_anomalies untrained_model high_slippage_tx).2).contains "high_slippage"
        = false := by
  refine ⟨decide_eq_true ?_, rfl, rfl⟩
  norm_num [high_slippage_tx, mkTx]

/-- C4 amended: the simple range checks run exactly when the statistical
model is fit — for a transaction whose slippage exceeds 0.05 the
high_slippage issue code is present if and only if model_trained holds,
and with a fit model it is present regardless of the model score. -/
theorem range_checks_require_trained_model (m : AnomalyModel) (tx : Tx)
    (hs : (5 : ℚ)/100 < tx.slippage) :
    ((detect_anomalies m tx).2).contains "high_slippage" = m.model_trained := by
  unfold detect_anomalies
  cases hm : m.model_trained
  · rfl
  · simp only [hm, Bool.not_true, Bool.false_eq_true, if_false]
    simp [hs]

/-- C4 witness: the amended statement at a fit model and the concrete
high-slippage transaction. -/
theorem range_checks_require_trained_model_witness :
    ((detect_anomalies trained_model high_slippage_tx).2).contains "high_slippage"
      = trained_model.model_trained :=
  range_checks_require_trained_model trained_model high_slippage_tx
    (by norm_num [high_slippage_tx, mkTx])

/-! ### C3: the feature extractor reads the wall clock -/

/-- A neutral transaction used to exhibit the clock dependence. -/
def clock_example_tx : Tx := mkTx "0xclock" 100 "100.0" 0 10 0 1 false

/-- C3 counterexample: two invocations of extract_features on the same
transaction list, one at clock reading 0 and one at clock reading 1,
produce different feature vectors. -/
theorem extract_features_clock_dependent_cex :
    decide (extract_features 0 [clock_example_tx] = extract_features 1 [clock_example_tx])
      = false := by
  apply decide_eq_false
  simp [extract_features, clock_example_tx, mkTx]

/-- C3 amended: the extractor is deterministic only at a fixed clock
reading — the first five features depend on the transaction alone, the
sixth is the clock reading minus the transaction timestamp, so two
invocations on an identical transaction agree exactly when the two
clock readings coincide. -/
theorem extract_features_deterministic_iff_same_clock (tx : Tx) (now1 now2 : ℚ) :
    extract_features now1 [tx] = extract_features now2 [tx] ↔ now1 = now2 := by
  simp [extract_features, sub_left_inj]

/-! ### C9: the round-number condition never yields a Finding -/

/-- The failing transaction of the round-number claim: amount 2000.0, a
round number.  Its amount_str is the genuine Python rendering
str(2000.0) = "2000.0" — the shortest round-tripping rendering of a
float never ends in the three characters 000 (integral floats below
1e16 end in a dot and a zero, larger ones use exponent form, and
fractional shortest renderings carry no trailing zeros). -/
def round_amount_tx : Tx := mkTx "0xround" 2000 "2000.0" 0 10 0 1 false

/-- A single history transaction at the same instant as the assessment,
so neither the inactivity nor the rapid-trading condition holds. -/
def quiet_history_tx : Tx := mkTx "0xold" 5000 "5000.0" 0 10 0 1 false

/-- C9: evaluation of the code at the failing input of the round-number
claim.  First conjunct, for every request: the unusual_pattern Findings
of an assessment are exactly the rapid_trading and after-inactivity
alerts — assess_risk (lines 329-347) branches only on those two codes,
so the round_amount code that detect_unusual_patterns can record is
never read and no Finding with its own severity and confidence exists
for it.  Second and third conjuncts, at the failing input itself: the
rendering str(2000.0) = "2000.0" does not end in 000, so the round
condition cannot even fire there — detect_unusual_patterns, applied to
the field records assess_risk would hand it (its dict access over the
pydantic history objects read as field access), records no code at
all. -/
theorem round_amount_never_becomes_finding :
    (∀ (m : AnomalyModel) (now end_time : ℚ) (req : RiskAssessmentRequest),
      ((assess_risk m now end_time req).alerts.filter
          (fun a => a.alert_type == "unusual_pattern"))
        = (if rapid_hit now req then [rapid_trading_alert] else [])
          ++ (if inact_hit now req then [inactivity_alert] else []))
    ∧ py_endswith round_amount_tx.amount_str "000" = false
    ∧ detect_unusual_patterns 0 round_amount_tx [quiet_history_tx] = [] := by
  refine ⟨?_, rfl, ?_⟩
  · intro m now end_time req
    show (assess_alerts m now req).filter (fun a => a.alert_type == "unusual_pattern") = _
    unfold assess_alerts
    rw [List.filter_append, List.filter_append, List.filter_append, List.filter_append]
    have h1 : (if flash_hit req then [flash_loan_alert] else []).filter
        (fun a => a.alert_type == "unusual_pattern") = [] := by
      split_ifs <;> rfl
    have h2 : (if mev_hit req then [mev_alert] else []).filter
        (fun a => a.alert_type == "unusual_pattern") = [] := by
      split_ifs <;> rfl
    have h3 : (if rapid_hit now req then [rapid_trading_alert] else []).filter
        (fun a => a.alert_type == "unusual_pattern")
        = (if rapid_hit now req then [rapid_trading_alert] else []) := by
      split_ifs <;> rfl
    have h4 : (if inact_hit now req then [inactivity_alert] else []).filter
        (fun a => a.alert_type == "unusual_pattern")
        = (if inact_hit now req then [inactivity_alert] else []) := by
      split_ifs <;> rfl
    have h5 : (if (7 : ℚ)/10 < (detect_anomalies m req.transaction).1 then
          [contract_risk_alert (detect_anomalies m req.transaction).1] else []).filter
        (fun a => a.alert_type == "unusual_pattern") = [] := by
      split_ifs <;> rfl
    rw [h1, h2, h3, h4, h5]
    simp
  · have hround : py_endswith "2000.0" "000" = false := rfl
    norm_num [detect_unusual_patterns, round_amount_tx, quiet_history_tx, mkTx,
      list_mean, List.insertionSort, List.orderedInsert, hround]

/-! ### C2: alert emissions are never deduplicated -/

/-- Every record one check_alerts pass produces carries the timestamp of
that pass. -/
lemma service_alerts_timestamp (now : ℚ) (th : AlertThresholds) (service : String)
    (stats : ServiceStats) :
    (service_alerts now th service stats).all (fun a => decide (a.timestamp = now))
      = true := by
  unfold service_alerts
  split_ifs <;> simp

/-- C2 counterexample: two consecutive identical flash-loan detections
for the same transaction hash emit two alerts for the pair
(0xflash, flash_loan), not one. -/
theorem duplicate_flash_alert_emissions_cex :
    emission_count ("0xflash", "flash_loan") untrained_model 0 0
        [flash_example_req, flash_example_req] = 2
    ∧ decide (emission_count ("0xflash", "flash_loan") untrained_model 0 0
        [flash_example_req, flash_example_req] = 1) = false := by
  have hfl : detect_flash_loan flash_example_tx = true := by
    norm_num [detect_flash_loan, flash_example_tx, mkTx]
  have hf : flash_hit flash_example_req = true := by
    simp [flash_hit, flash_example_req, hfl]
  have hm : mev_hit flash_example_req = false := by
    norm_num [mev_hit, detect_mev_attack, flash_example_req, flash_example_tx, mkTx]
  have hr : rapid_hit 0 flash_example_req = false := by
    simp [rapid_hit, pattern_alert_codes, history_truthy, flash_example_req]
  have hi : inact_hit 0 flash_example_req = false := by
    simp [inact_hit, pattern_alert_codes, history_truthy, flash_example_req]
  have halerts : (assess_risk untrained_model 0 0 flash_example_req).alerts
      = [flash_loan_alert] := by
    show assess_alerts untrained_model 0 flash_example_req = _
    unfold assess_alerts
    rw [hf, hm, hr, hi]
    norm_num [detect_anomalies, untrained_model]
  have hkeys : emitted_alert_keys untrained_model 0 0 flash_example_req
      = [("0xflash", "flash_loan")] := by
    unfold emitted_alert_keys
    rw [halerts]
    rfl
  have h2 : emission_count ("0xflash", "flash_loan") untrained_model 0 0
      [flash_example_req, flash_example_req] = 2 := by
    simp [emission_count, hkeys]
  refine ⟨h2, ?_⟩
  rw [h2]
  decide

/-- C2 amended: no deduplication state exists on either cited path — each
assess_risk call emits one counter increment per alert of that call, so
two consecutive identical detections for the same transaction hash and
alert type emit exactly twice what one does; and each check_alerts pass
rebuilds its alert records from scratch, every record carrying the
timestamp of that pass (the records have no last_seen field to update). -/
theorem alert_emissions_not_deduplicated :
    (∀ (m : AnomalyModel) (now end_time : ℚ) (req : RiskAssessmentRequest)
        (key : String × String),
        emission_count key m now end_time [req, req]
          = 2 * emission_count key m now end_time [req])
    ∧ (∀ (now : ℚ) (th : AlertThresholds) (stats : List (String × ServiceStats)),
        (check_alerts now th stats).all (fun a => decide (a.timestamp = now)) = true) := by
  constructor
  · intro m now end_time req key
    show ((emitted_alert_keys m now end_time req)
        ++ ((emitted_alert_keys m now end_time req) ++ [])).count key
      = 2 * ((emitted_alert_keys m now end_time req) ++ []).count key
    rw [List.count_append, List.count_append]
    simp [two_mul]
  · intro now th stats
    induction stats with
    | nil => rfl
    | cons head tail ih =>
      show ((service_alerts now th head.1 head.2) ++ check_alerts now th tail).all
          (fun a => decide (a.timestamp = now)) = true
      rw [List.all_append, service_alerts_timestamp, ih]
      rfl

/-! ### C7: the sandwich scenario and its confidence levels -/

/-- The sandwich target: amount 100 at t = 0. -/
def sandwich_target : Tx := mkTx "0xtarget" 100 "100.0" 0 50 0 1 false

/-- The front transaction of the scenario: amount 60 at t = -5 s. -/
def sandwich_front : Tx := mkTx "0xfront" 60 "60.0" (-5) 50 0 1 false

/-- The back transaction of the scenario: amount 80 at t = +5 s. -/
def sandwich_back : Tx := mkTx "0xback" 80 "80.0" 5 50 0 1 false

/-- C7: any surrounding list containing the amount-60 transaction at
t = -5 and the amount-80 transaction at t = +5 makes the MEV sandwich
detector report a sandwich on the amount-100 target at t = 0, with
confidence 0.5 or 0.7, and the confidence is 0.7 exactly when more than
one qualifying transaction exists on each side of the target. -/
theorem sandwich_scenario_detected (txs : List Tx)
    (hfront : sandwich_front ∈ txs) (hback : sandwich_back ∈ txs) :
    (MEVDetector.detect_sandwich_attack sandwich_target txs).1 = true
    ∧ ((MEVDetector.detect_sandwich_attack sandwich_target txs).2 = (5 : ℚ)/10
       ∨ (MEVDetector.detect_sandwich_attack sandwich_target txs).2 = (7 : ℚ)/10)
    ∧ ((MEVDetector.detect_sandwich_attack sandwich_target txs).2 = (7 : ℚ)/10
       ↔ (1 < MEVDetector.qualifying_before sandwich_target txs
           ∧ 1 < MEVDetector.qualifying_after sandwich_target txs)) := by
  have hb : 0 < MEVDetector.qualifying_before sandwich_target txs := by
    unfold MEVDetector.qualifying_before
    apply List.length_pos_of_mem (a := sandwich_front)
    refine List.mem_filter.mpr ⟨List.mem_filter.mpr ⟨hfront, ?_⟩, ?_⟩
    · rw [decide_eq_true_eq]
      norm_num [sandwich_front, sandwich_target, mkTx]
    · rw [decide_eq_true_eq]
      norm_num [sandwich_front, sandwich_target, mkTx]
  have ha : 0 < MEVDetector.qualifying_after sandwich_target txs := by
    unfold MEVDetector.qualifying_after
    apply List.length_pos_of_mem (a := sandwich_back)
    refine List.mem_filter.mpr ⟨List.mem_filter.mpr ⟨hback, ?_⟩, ?_⟩
    · rw [decide_eq_true_eq]
      norm_num [sandwich_back, sandwich_target, mkTx]
    · rw [decide_eq_true_eq]
      norm_num [sandwich_back, sandwich_target, mkTx]
  refine ⟨?_, ?_, ?_⟩
  · show (decide _ && decide _) = true
    simp [hb, ha]
  · show (if _ ∧ _ then (7 : ℚ)/10 else (5 : ℚ)/10) = _ ∨
      (if _ ∧ _ then (7 : ℚ)/10 else (5 : ℚ)/10) = _
    split_ifs
    · right; rfl
    · left; rfl
  · show (if _ ∧ _ then (7 : ℚ)/10 else (5 : ℚ)/10) = _ ↔ _
    split_ifs with h
    · simp [h]
    · simp [h]
      norm_num
/-- C7 witness: the two-transaction scenario itself is detected. -/
theorem sandwich_scenario_detected_witness :
    (MEVDetector.detect_sandwich_attack sandwich_target
      [sandwich_front, sandwich_back]).1 = true :=
  (sandwich_scenario_detected [sandwich_front, sandwich_back]
    (by simp) (by simp)).1

end SobaDex
